import Mathlib

/-!
Shallow embedding of the real-time dispatch engine (`RealTimeServer` in the
repository's WebSocket server module): the connected-client registry, the
authenticated message protocol, the ride lifecycle handlers, the heartbeat
supervisor, and the broadcast helpers. Handlers, the registry-mutating
message loop, the close handler and the heartbeat scan are translated from
the source; the persistent store gateway (`storage`) is not part of the
sources and is modelled from the spec's collaborator contract. Serial frame
processing is modelled by `processEvent`/`runEvents`; the award of interest
— the accept path, whose `await` boundaries let two handler instances
interleave — is embedded as a small-step machine (`acceptStep`) so that
schedules of concurrent `ride_accepted` attempts can be examined, and its
serial run (`runAccept`) is the accept handler used by the dispatcher.
-/

namespace RideRT

/-- Message types of the wire protocol, from the server's MessageType enum
(only the configuration-broadcast types unused by the engine are elided). -/
inductive MessageType where
  | driver_location_update
  | driver_status_update
  | ride_request
  | ride_request_success
  | new_ride_request
  | ride_accepted
  | ride_rejected
  | ride_canceled
  | ride_started
  | ride_completed
  | error
  | ping
  | pong
  | auth_success
  deriving DecidableEq, Repr

/-- Payload of an inbound `ride_request` frame (origin/destination
coordinates and addresses plus caller-supplied estimates). Coordinates are
integers (e.g. micro-degrees); estimates are optional. -/
structure RideReqPayload where
  originLatitude : Int
  originLongitude : Int
  originAddress : String
  destinationLatitude : Int
  destinationLongitude : Int
  destinationAddress : String
  estimatedDistance : Option Int := none
  estimatedDuration : Option Int := none
  estimatedPrice : Option Int := none
  deriving DecidableEq, Repr

/-- Payload of an inbound `driver_location_update` frame. -/
structure LocUpdatePayload where
  latitude : Int
  longitude : Int
  heading : Option Int := none
  speed : Option Int := none
  accuracy : Option Int := none
  status : Option String := none
  deriving DecidableEq, Repr

/-- Outbound payloads, one constructor per send site of the server. -/
inductive OutPayload where
  | errorMsg (message : String)
  | authSuccess (userId : Nat) (userType : String)
  | pongReply
  | newRideRequest (id : Nat) (passengerId : Nat) (passengerName : String)
      (passengerPhone : String) (req : RideReqPayload) (requestTime : Nat)
  | newRideRequestTest (id : Nat) (req : RideReqPayload) (requestTime : Nat)
  | rideRequestAck (success : Bool) (rideId : Nat) (message : String)
  | rideAcceptedPassenger (rideId : Nat) (driverId : Nat) (message : String)
  | rideAcceptedDriver (success : Bool) (rideRequestId : Nat) (message : String)
  | rideRejected (rideId : Nat) (message : String)
  | rideStartedPassenger (rideId : Nat) (driverId : Nat) (message : String)
  | rideStartedDriver (success : Bool) (rideRequestId : Nat) (message : String)
  | rideCompletedPassenger (rideId : Nat) (driverId : Nat) (price : Option Int)
      (message : String)
  | rideCompletedDriver (success : Bool) (rideRequestId : Nat) (message : String)
  | rideCanceledNotice (rideId : Nat) (canceledBy : String)
      (reason : Option String) (message : String)
  | rideCanceledAck (success : Bool) (rideRequestId : Nat) (message : String)
  | driverLocRelay (driverId : Nat) (latitude : Int) (longitude : Int)
      (heading : Option Int) (speed : Option Int) (accuracy : Option Int)
      (rideId : Nat)
  deriving DecidableEq, Repr

/-- A frame sent by the server on connection `dest`. -/
structure SentMsg where
  dest : Nat
  type : MessageType
  payload : OutPayload
  deriving DecidableEq, Repr

/-- Inbound frames. `auth` and `ping` carry the (possibly absent) identity
payload: the server destructures `payload.userId`/`payload.userType` from
both, with `0` and `""` standing for absent/falsy values. -/
inductive InMsg where
  | auth (userId : Nat) (userType : String)
  | ping (userId : Nat) (userType : String)
  | driverLocationUpdate (p : LocUpdatePayload)
  | driverStatusUpdate (status : String)
  | rideRequest (p : RideReqPayload)
  | rideAccepted (rideRequestId : Nat)
  | rideStarted (rideRequestId : Nat)
  | rideCompleted (rideRequestId : Nat)
  | rideCanceled (rideRequestId : Nat) (reason : Option String)
  | unknown (t : String)
  deriving DecidableEq, Repr

/-- Modelled from the spec: a `RideRequest` row of the durable store. The
spec names the passenger party `passengerId`; the server writes it at
creation and reads it back as `ride.userId`, so the single field `userId`
holds the passenger's id. `driverId` is nullable until matched; `amount`
(the final price read at completion) is never written by the engine. -/
structure Ride where
  id : Nat
  userId : Nat
  driverId : Option Nat := none
  status : String
  requestTime : Nat := 0
  startTime : Option Nat := none
  endTime : Option Nat := none
  amount : Option Int := none
  req : RideReqPayload
  deriving DecidableEq, Repr

/-- Modelled from the spec: a `DriverLocation` row, one per driver, with
`status` in available/busy/offline and a nullable `currentRideId`. -/
structure DriverLocation where
  driverId : Nat
  latitude : Int
  longitude : Int
  heading : Option Int := none
  speed : Option Int := none
  accuracy : Option Int := none
  status : String
  currentRideId : Option Nat := none
  deriving DecidableEq, Repr

/-- Modelled from the spec: a passenger record as read through
`getPassengerById` (only the fields the engine uses). -/
structure Passenger where
  id : Nat
  fullName : Option String := none
  phoneNumber : Option String := none
  deriving DecidableEq, Repr

/-- Modelled from the spec: the state behind the Ride Store Gateway —
ride rows, driver-location rows, the driver user table (existence only)
and the passenger table, plus the id the store will assign to the next
created ride. -/
structure Store where
  rides : List Ride := []
  driverLocations : List DriverLocation := []
  users : List Nat := []
  passengers : List Passenger := []
  nextRideId : Nat := 1
  deriving DecidableEq, Repr

/-- Modelled from the spec: `getRideById` returns the ride row with the
given id, if any. -/
def getRideById (st : Store) (id : Nat) : Option Ride :=
  st.rides.find? (fun r => r.id = id)

/-- Partial-update record for `updateRide`; `none` leaves a field as is. -/
structure RideUpdate where
  driverId : Option Nat := none
  status : Option String := none
  startTime : Option Nat := none
  endTime : Option Nat := none
  deriving DecidableEq, Repr

/-- Merge a partial ride update into a row. -/
def applyRideUpdate (r : Ride) (u : RideUpdate) : Ride :=
  { r with
    driverId := match u.driverId with | some d => some d | none => r.driverId
    status := u.status.getD r.status
    startTime := match u.startTime with | some t => some t | none => r.startTime
    endTime := match u.endTime with | some t => some t | none => r.endTime }

/-- Modelled from the spec: `updateRide(id, partialFields)` applies the
partial update to the row(s) with the given id. -/
def updateRide (st : Store) (id : Nat) (u : RideUpdate) : Store :=
  { st with rides := st.rides.map (fun r => if r.id = id then applyRideUpdate r u else r) }

/-- Modelled from the spec: `createRideRequest` inserts a row with the
store-assigned next id and returns it. -/
def createRideRequest (st : Store) (userId : Nat) (p : RideReqPayload)
    (now : Nat) : Ride × Store :=
  let r : Ride := { id := st.nextRideId, userId := userId, status := "pending",
                    requestTime := now, req := p }
  (r, { st with rides := st.rides ++ [r], nextRideId := st.nextRideId + 1 })

/-- Modelled from the spec: `getDriverLocationByDriverId`. -/
def getDriverLocationByDriverId (st : Store) (driverId : Nat) : Option DriverLocation :=
  st.driverLocations.find? (fun d => d.driverId = driverId)

/-- Partial-update record for `updateDriverLocation`; `none` leaves a field
as is, and `currentRideId := some none` sets the reference to null. -/
structure DLUpdate where
  latitude : Option Int := none
  longitude : Option Int := none
  heading : Option Int := none
  speed : Option Int := none
  accuracy : Option Int := none
  status : Option String := none
  currentRideId : Option (Option Nat) := none
  deriving DecidableEq, Repr

/-- Merge a partial driver-location update into a row. -/
def applyDLUpdate (d : DriverLocation) (u : DLUpdate) : DriverLocation :=
  { d with
    latitude := u.latitude.getD d.latitude
    longitude := u.longitude.getD d.longitude
    heading := match u.heading with | some h => some h | none => d.heading
    speed := match u.speed with | some s => some s | none => d.speed
    accuracy := match u.accuracy with | some a => some a | none => d.accuracy
    status := u.status.getD d.status
    currentRideId := u.currentRideId.getD d.currentRideId }

/-- Modelled from the spec: `updateDriverLocation(driverId, partialFields)`
applies the partial update to that driver's row (no-op when absent). -/
def updateDriverLocation (st : Store) (driverId : Nat) (u : DLUpdate) : Store :=
  { st with driverLocations :=
      st.driverLocations.map (fun d => if d.driverId = driverId then applyDLUpdate d u else d) }

/-- Modelled from the spec: `createDriverLocation` inserts a row. -/
def createDriverLocation (st : Store) (d : DriverLocation) : Store :=
  { st with driverLocations := st.driverLocations ++ [d] }

/-- Modelled from the spec: the Driver Locator — `DriverLocation` rows with
`status = available` within the radius of the origin. The metric is the
taxicab distance on the integer coordinates (the SQL distance predicate is
part of the store, outside the sources; any metric instantiates the spec's
contract, and every claim conditions only on the result set). -/
def getAvailableDriversNearLocation (st : Store) (lat lng : Int)
    (radius : Int) : List DriverLocation :=
  st.driverLocations.filter
    (fun d => d.status = "available" ∧ (d.latitude - lat).natAbs + (d.longitude - lng).natAbs ≤ radius.toNat)

/-- Modelled from the spec: `getUserById` (driver users; existence only). -/
def getUser (st : Store) (id : Nat) : Option Nat :=
  if id ∈ st.users then some id else none

/-- Modelled from the spec: `getPassengerById`. -/
def getPassenger (st : Store) (id : Nat) : Option Passenger :=
  st.passengers.find? (fun p => p.id = id)

/-- A connected-client record: connection handle (a numeric id), identity,
role string and the last-activity timestamp. -/
structure Client where
  ws : Nat
  userId : Nat
  userType : String
  lastActivity : Nat
  deriving DecidableEq, Repr

/-- The server world: the client registry (in list order, as the server's
array), the set of open connections (readyState OPEN), the store reached
through the gateway, and the frames sent so far. -/
structure World where
  clients : List Client := []
  wsOpen : List Nat := []
  store : Store := {}
  sent : List SentMsg := []
  deriving DecidableEq, Repr

/-- `sendMessage`: send a frame when the connection is open, else drop. -/
def sendMessage (w : World) (ws : Nat) (ty : MessageType) (pl : OutPayload) : World :=
  if ws ∈ w.wsOpen then { w with sent := w.sent ++ [⟨ws, ty, pl⟩] } else w

/-- `sendError`: an `error` frame with a message. -/
def sendError (w : World) (ws : Nat) (message : String) : World :=
  sendMessage w ws .error (.errorMsg message)

/-- First registry entry bound to a connection (the server's
`clients.findIndex(c => c.ws === ws)`). -/
def findClient : List Client → Nat → Option Client
  | [], _ => none
  | c :: cs, ws => if c.ws = ws then some c else findClient cs ws

/-- Refresh `lastActivity` of the first registry entry bound to the
connection (the server mutates `clients[clientIndex].lastActivity`). -/
def touchFirst : List Client → Nat → Nat → List Client
  | [], _, _ => []
  | c :: cs, ws, now =>
      if c.ws = ws then { c with lastActivity := now } :: cs
      else c :: touchFirst cs ws now

/-- Remove the first registry entry bound to the connection (the close
handler's `splice(clientIndex, 1)`). -/
def removeFirstWs : List Client → Nat → List Client
  | [], _ => []
  | c :: cs, ws => if c.ws = ws then cs else c :: removeFirstWs cs ws

/-- Fan a frame out to a list of clients through `sendMessage`. -/
def sendToAll (w : World) (targets : List Client) (ty : MessageType)
    (pl : OutPayload) : World :=
  targets.foldl (fun acc c => sendMessage acc c.ws ty pl) w

/-- `broadcastToUser`: send to every session of one `(userId, userType)`. -/
def broadcastToUser (w : World) (userId : Nat) (userType : String)
    (ty : MessageType) (pl : OutPayload) : World :=
  sendToAll w (w.clients.filter (fun c => c.userId = userId ∧ c.userType = userType)) ty pl

/-- `broadcastToUserType`: send to every session of a role, minus the
excluded user ids. -/
def broadcastToUserType (w : World) (userType : String) (ty : MessageType)
    (pl : OutPayload) (excludeUsers : List Nat) : World :=
  sendToAll w (w.clients.filter (fun c => c.userType = userType ∧ c.userId ∉ excludeUsers)) ty pl

/-- Replace the world's store. -/
def setStore (w : World) (st : Store) : World :=
  { w with store := st }

/-- Replace the world's client registry. -/
def setClients (w : World) (cs : List Client) : World :=
  { w with clients := cs }

/-- Fallback for falsy string fields (`x || fallback`). -/
def orFallback (o : Option String) (d : String) : String :=
  match o with
  | some s => if s = "" then d else s
  | none => d

/-- `handleDriverLocationUpdate`: drivers only; upsert the location fields,
then, when the driver has a current ride, relay the position to that ride's
passenger. -/
def handleDriverLocationUpdate (w : World) (p : LocUpdatePayload) (c : Client) : World :=
  if c.userType ≠ "driver" then
    sendError w c.ws "Apenas motoristas podem atualizar localização"
  else
    let w := setStore w (updateDriverLocation w.store c.userId
      { latitude := some p.latitude, longitude := some p.longitude,
        heading := p.heading, speed := p.speed, accuracy := p.accuracy,
        status := p.status })
    match getDriverLocationByDriverId w.store c.userId with
    | none => w
    | some dl =>
      match dl.currentRideId with
      | none => w
      | some rideId =>
        match getRideById w.store rideId with
        | none => w
        | some ride =>
          if ride.userId ≠ 0 then
            broadcastToUser w ride.userId "passenger" .driver_location_update
              (.driverLocRelay c.userId p.latitude p.longitude p.heading p.speed
                p.accuracy rideId)
          else w

/-- `handleDriverStatusUpdate`: drivers only; write the status field. -/
def handleDriverStatusUpdate (w : World) (status : String) (c : Client) : World :=
  if c.userType ≠ "driver" then
    sendError w c.ws "Apenas motoristas podem atualizar status"
  else
    setStore w (updateDriverLocation w.store c.userId { status := some status })

/-- `simulateRideRequestForTesting`: a driver-initiated test notification —
no store write; a simulated request (id = `Date.now()`) is pushed to every
connected driver and a `ride_request_success` acknowledgement returned. -/
def simulateRideRequestForTesting (w : World) (p : RideReqPayload) (c : Client)
    (now : Nat) : World :=
  let w := sendToAll w
    (w.clients.filter (fun dc => dc.userType = "driver" ∧ dc.ws ∈ w.wsOpen))
    .new_ride_request (.newRideRequestTest now p now)
  sendMessage w c.ws .ride_request_success
    (.rideRequestAck true now "Teste de notificação enviado com sucesso")

/-- `handleRideRequest`: passengers create a pending ride row, the Driver
Locator is queried with a 10 km radius, and the request is pushed to the
candidate drivers — or, when none are found, to every connected driver
client as a fallback; the requester is then acknowledged. A driver-typed
requester triggers the test simulation instead. -/
def handleRideRequest (w : World) (p : RideReqPayload) (c : Client) (now : Nat) : World :=
  if c.userType ≠ "passenger" ∧ c.userType ≠ "driver" then
    sendError w c.ws "Apenas passageiros e motoristas podem solicitar corridas"
  else if c.userType = "driver" then
    simulateRideRequestForTesting w p c now
  else
    let (ride, st) := createRideRequest w.store c.userId p now
    let w := setStore w st
    let avail := getAvailableDriversNearLocation w.store p.originLatitude p.originLongitude 10000
    let passenger := getPassenger w.store c.userId
    let pname := orFallback (passenger.bind (·.fullName)) ("Passageiro #" ++ toString c.userId)
    let pphone := orFallback (passenger.bind (·.phoneNumber)) "(00) 00000-0000"
    let pl := OutPayload.newRideRequest ride.id c.userId pname pphone p now
    let w :=
      if avail.isEmpty then
        sendToAll w (w.clients.filter (fun dc => dc.userType = "driver")) .new_ride_request pl
      else
        avail.foldl (fun acc d => broadcastToUser acc d.driverId "driver" .new_ride_request pl) w
    sendMessage w c.ws .ride_request
      (.rideRequestAck true ride.id "Solicitação de corrida criada com sucesso")

/-- One in-flight `handleRideAccepted` invocation: its client and payload,
a program counter marking the next atomic block (the code between two
`await` suspension points), and the local snapshots read so far. -/
structure AcceptAttempt where
  client : Client
  rideRequestId : Nat
  pc : Nat := 0
  ride : Option Ride := none
  dl : Option DriverLocation := none
  deriving DecidableEq, Repr

/-- One atomic block of `handleRideAccepted`. Block 0: role check, then the
`getRideById` read. Block 1: not-found / not-`pending` checks on the
snapshot, then the `getDriverLocationByDriverId` read. Block 2: busy check
on the snapshot, then the unconditional `updateRide` to
`driverId := client.userId, status := "accepted"`. Block 3:
`updateDriverLocation` to busy with the current ride. Block 4: notify the
ride's passenger, push `ride_rejected` to every other driver, and confirm
success to the acceptor. Block 5 and beyond: done. -/
def acceptStep (w : World) (a : AcceptAttempt) : World × AcceptAttempt :=
  match a.pc with
  | 0 =>
    if a.client.userType ≠ "driver" then
      (sendError w a.client.ws "Apenas motoristas podem aceitar corridas", { a with pc := 5 })
    else
      (w, { a with ride := getRideById w.store a.rideRequestId, pc := 1 })
  | 1 =>
    match a.ride with
    | none => (sendError w a.client.ws "Corrida não encontrada", { a with pc := 5 })
    | some r =>
      if r.status ≠ "pending" then
        (sendError w a.client.ws "Esta corrida não está mais disponível", { a with pc := 5 })
      else
        (w, { a with dl := getDriverLocationByDriverId w.store a.client.userId, pc := 2 })
  | 2 =>
    if (a.dl.bind (·.currentRideId)).isSome then
      (sendError w a.client.ws "Você já está em uma corrida ativa", { a with pc := 5 })
    else
      (setStore w (updateRide w.store a.rideRequestId
          { driverId := some a.client.userId, status := some "accepted" }),
       { a with pc := 3 })
  | 3 =>
    (setStore w (updateDriverLocation w.store a.client.userId
        { currentRideId := some (some a.rideRequestId), status := some "busy" }),
     { a with pc := 4 })
  | 4 =>
    let w :=
      match a.ride with
      | some r =>
        if r.userId ≠ 0 then
          broadcastToUser w r.userId "passenger" .ride_accepted
            (.rideAcceptedPassenger a.rideRequestId a.client.userId
              "Sua corrida foi aceita por um motorista")
        else w
      | none => w
    let w := broadcastToUserType w "driver" .ride_rejected
      (.rideRejected a.rideRequestId "Esta corrida foi aceita por outro motorista")
      [a.client.userId]
    let w := sendMessage w a.client.ws .ride_accepted
      (.rideAcceptedDriver true a.rideRequestId "Corrida aceita com sucesso")
    (w, { a with pc := 5 })
  | _ => (w, a)

/-- `handleRideAccepted` run serially: the five atomic blocks back to
back with no interleaving (a sixth step is a no-op). -/
def runAccept (w : World) (c : Client) (rideRequestId : Nat) : World :=
  let p1 := acceptStep w { client := c, rideRequestId := rideRequestId }
  let p2 := acceptStep p1.1 p1.2
  let p3 := acceptStep p2.1 p2.2
  let p4 := acceptStep p3.1 p3.2
  let p5 := acceptStep p4.1 p4.2
  (acceptStep p5.1 p5.2).1

/-- Interleave the atomic blocks of two concurrent `handleRideAccepted`
attempts under a schedule: `true` runs a block of the first attempt,
`false` one of the second. -/
def runSchedule (w : World) (a b : AcceptAttempt) :
    List Bool → World × AcceptAttempt × AcceptAttempt
  | [] => (w, a, b)
  | true :: s =>
    let (w', a') := acceptStep w a
    runSchedule w' a' b s
  | false :: s =>
    let (w', b') := acceptStep w b
    runSchedule w' a b' s

/-- `handleRideStarted`: the assigned driver moves an `accepted` ride to
`active`, stamping the start time and notifying the passenger. -/
def handleRideStarted (w : World) (rideRequestId : Nat) (c : Client) (now : Nat) : World :=
  if c.userType ≠ "driver" then
    sendError w c.ws "Apenas motoristas podem iniciar corridas"
  else
    match getRideById w.store rideRequestId with
    | none => sendError w c.ws "Corrida não encontrada"
    | some ride =>
      if ride.driverId ≠ some c.userId then
        sendError w c.ws "Você não está atribuído a esta corrida"
      else if ride.status ≠ "accepted" then
        sendError w c.ws "Esta corrida não pode ser iniciada"
      else
        let w := setStore w (updateRide w.store rideRequestId
          { status := some "active", startTime := some now })
        let w :=
          if ride.userId ≠ 0 then
            broadcastToUser w ride.userId "passenger" .ride_started
              (.rideStartedPassenger rideRequestId c.userId "Sua corrida foi iniciada")
          else w
        sendMessage w c.ws .ride_started
          (.rideStartedDriver true rideRequestId "Corrida iniciada com sucesso")

/-- `handleRideCompleted`: the assigned driver moves an `active` ride to
`completed`, stamping the end time, freeing the driver's location row
(available, no current ride) and notifying the passenger with the price. -/
def handleRideCompleted (w : World) (rideRequestId : Nat) (c : Client) (now : Nat) : World :=
  if c.userType ≠ "driver" then
    sendError w c.ws "Apenas motoristas podem completar corridas"
  else
    match getRideById w.store rideRequestId with
    | none => sendError w c.ws "Corrida não encontrada"
    | some ride =>
      if ride.driverId ≠ some c.userId then
        sendError w c.ws "Você não está atribuído a esta corrida"
      else if ride.status ≠ "active" then
        sendError w c.ws "Esta corrida não está ativa"
      else
        let w := setStore w (updateRide w.store rideRequestId
          { status := some "completed", endTime := some now })
        let w := setStore w (updateDriverLocation w.store c.userId
          { currentRideId := some none, status := some "available" })
        let w :=
          if ride.userId ≠ 0 then
            broadcastToUser w ride.userId "passenger" .ride_completed
              (.rideCompletedPassenger rideRequestId c.userId ride.amount
                "Sua corrida foi completada")
          else w
        sendMessage w c.ws .ride_completed
          (.rideCompletedDriver true rideRequestId "Corrida completada com sucesso")

/-- `handleRideCanceled`: either party may cancel a ride it owns (the
passenger by `ride.userId`, the driver by `ride.driverId`); the status is
set to `canceled` with no status precondition, any assigned driver is
freed, and the counterparty is notified. -/
def handleRideCanceled (w : World) (rideRequestId : Nat) (reason : Option String)
    (c : Client) : World :=
  match getRideById w.store rideRequestId with
  | none => sendError w c.ws "Corrida não encontrada"
  | some ride =>
    if c.userType = "passenger" ∧ ride.userId ≠ c.userId then
      sendError w c.ws "Você não pode cancelar esta corrida"
    else if c.userType = "driver" ∧ ride.driverId ≠ some c.userId then
      sendError w c.ws "Você não pode cancelar esta corrida"
    else
      let w := setStore w (updateRide w.store rideRequestId
        { status := some "canceled" })
      let w :=
        match ride.driverId with
        | some d => setStore w (updateDriverLocation w.store d
            { currentRideId := some none, status := some "available" })
        | none => w
      let w :=
        if c.userType = "passenger" then
          match ride.driverId with
          | some d => broadcastToUser w d "driver" .ride_canceled
              (.rideCanceledNotice rideRequestId "passenger" reason
                "Corrida cancelada pelo passageiro")
          | none => w
        else if c.userType = "driver" ∧ ride.userId ≠ 0 then
          broadcastToUser w ride.userId "passenger" .ride_canceled
            (.rideCanceledNotice rideRequestId "driver" reason
              "Corrida cancelada pelo motorista")
        else w
      sendMessage w c.ws .ride_canceled
        (.rideCanceledAck true rideRequestId "Corrida cancelada com sucesso")

/-- `handleMessage`: dispatch an (already activity-touched) frame by type.
The `ping → pong` case mirrors the source but is unreachable through
`onMessage`, which intercepts every `ping` in the auth branch; `auth`
likewise never reaches the dispatcher and unknown types are ignored. -/
def handleMessage (w : World) (m : InMsg) (c : Client) (now : Nat) : World :=
  match m with
  | .driverLocationUpdate p => handleDriverLocationUpdate w p c
  | .driverStatusUpdate s => handleDriverStatusUpdate w s c
  | .rideRequest p => handleRideRequest w p c now
  | .rideAccepted rid => runAccept w c rid
  | .rideStarted rid => handleRideStarted w rid c now
  | .rideCompleted rid => handleRideCompleted w rid c now
  | .rideCanceled rid reason => handleRideCanceled w rid reason c
  | .ping _ _ => sendMessage w c.ws .pong .pongReply
  | .auth _ _ => w
  | .unknown _ => w

/-- The driver branch after a successful authentication: refresh the
driver's location status (busy when occupying a ride, else available), or
create a default offline row when none exists. -/
def driverBootstrap (w : World) (userId : Nat) : World :=
  match getDriverLocationByDriverId w.store userId with
  | some loc =>
    setStore w (updateDriverLocation w.store userId
      { status := some (if loc.currentRideId.isSome then "busy" else "available") })
  | none =>
    setStore w (createDriverLocation w.store
      { driverId := userId, latitude := 0, longitude := 0, status := "offline" })

/-- The auth branch of the message loop, entered by every `auth` *and*
every `ping` frame: reject falsy identity data; look the user up only for
the `driver` and `passenger` roles (any other role is accepted as is);
drop every registry entry with the same `(userId, userType)` and append a
fresh authenticated entry; reply `auth_success` (a raw `ws.send`, recorded
unconditionally); and bootstrap the driver's location row. -/
def authBranch (w : World) (ws : Nat) (userId : Nat) (userType : String)
    (now : Nat) : World :=
  if userId = 0 ∨ userType = "" then
    sendError w ws "Dados de autenticação inválidos"
  else
    let userExists :=
      if userType = "driver" then (getUser w.store userId).isSome
      else if userType = "passenger" then (getPassenger w.store userId).isSome
      else true
    if ¬userExists then
      sendError w ws "Usuário não encontrado"
    else
      let w := setClients w
        ((w.clients.filter (fun c => ¬(c.userId = userId ∧ c.userType = userType)))
          ++ [⟨ws, userId, userType, now⟩])
      let w := { w with sent := w.sent ++ [⟨ws, .auth_success, .authSuccess userId userType⟩] }
      if userType = "driver" then driverBootstrap w userId else w

/-- The `ws.on('message')` body: `auth`/`ping` frames enter the auth
branch; any other frame is matched to the first registry entry of its
connection (the unauthenticated placeholder, when present), whose
`lastActivity` is refreshed before dispatch; a connection with no entry
gets the not-authenticated error. -/
def onMessage (w : World) (ws : Nat) (m : InMsg) (now : Nat) : World :=
  match m with
  | .auth u r => authBranch w ws u r now
  | .ping u r => authBranch w ws u r now
  | _ =>
    match findClient w.clients ws with
    | none => sendError w ws "Cliente não autenticado"
    | some c =>
      let w := setClients w (touchFirst w.clients ws now)
      handleMessage w m { c with lastActivity := now } now

/-- The `ws.on('close')` handler: the transport is now closed; the first
registry entry of the connection, when present, is removed, after a
best-effort offline update of its driver's location when it is a driver
entry. -/
def onClose (w : World) (ws : Nat) : World :=
  let w := { w with wsOpen := w.wsOpen.erase ws }
  match findClient w.clients ws with
  | none => w
  | some c =>
    let w :=
      if c.userType = "driver" then
        setStore w (updateDriverLocation w.store c.userId { status := some "offline" })
      else w
    setClients w (removeFirstWs w.clients ws)

/-- Inactivity timeout of the heartbeat supervisor (60 s). -/
def HEARTBEAT_TIMEOUT : Nat := 60000

/-- The heartbeat scan loop: a `forEach` over the original indices with an
in-place `splice` on each stale entry — after a removal the element that
slid into the removed slot is skipped, exactly as in the source. A stale
entry's open connection is closed. -/
def scanFrom (now : Nat) (cs : List Client) (opn : List Nat) (i : Nat) :
    Nat → List Client × List Nat
  | 0 => (cs, opn)
  | k + 1 =>
    if h : i < cs.length then
      let c := cs.get ⟨i, h⟩
      if HEARTBEAT_TIMEOUT < now - c.lastActivity then
        scanFrom now (cs.eraseIdx i) (opn.erase c.ws) (i + 1) k
      else
        scanFrom now cs opn (i + 1) k
    else (cs, opn)

/-- One tick of the heartbeat supervisor (interval 30 s): scan the registry
and evict inactive entries. The scan touches neither the store nor the
sent log. -/
def heartbeatScan (w : World) (now : Nat) : World :=
  let p := scanFrom now w.clients w.wsOpen 0 w.clients.length
  { w with clients := p.1, wsOpen := p.2 }

/-- External events driving the server: a connection opening (which
appends the unauthenticated placeholder entry), an inbound frame, the
transport close event, and a heartbeat tick. -/
inductive Event where
  | connect (ws : Nat) (now : Nat)
  | message (ws : Nat) (m : InMsg) (now : Nat)
  | closeEvent (ws : Nat)
  | heartbeat (now : Nat)
  deriving DecidableEq, Repr

/-- Process one external event. -/
def processEvent (w : World) : Event → World
  | .connect ws now =>
    { clients := w.clients ++ [⟨ws, 0, "passenger", now⟩],
      wsOpen := if ws ∈ w.wsOpen then w.wsOpen else ws :: w.wsOpen,
      store := w.store, sent := w.sent }
  | .message ws m now => onMessage w ws m now
  | .closeEvent ws => onClose w ws
  | .heartbeat now => heartbeatScan w now

/-- Run a list of external events serially. -/
def runEvents (w : World) (evs : List Event) : World :=
  evs.foldl processEvent w

/-- The server's initial world over a given store. -/
def initialWorld (st : Store) : World :=
  { clients := [], wsOpen := [], store := st, sent := [] }

/-! Concrete scenarios used to settle the claims. -/

/-- A ride-request payload with origin (−23.00, −47.00) scaled to
centi-degrees, as in the spec's example scenario. -/
def examplePayload : RideReqPayload :=
  { originLatitude := -2300, originLongitude := -4700, originAddress := "Origem",
    destinationLatitude := -2400, destinationLongitude := -4800,
    destinationAddress := "Destino" }

/-- A store with driver users 20 and 21, passenger 10, and both drivers
available at the origin. -/
def exampleStore : Store :=
  { users := [20, 21],
    passengers := [{ id := 10, fullName := some "Passageira P",
                     phoneNumber := some "(19) 99999-0000" }],
    driverLocations :=
      [{ driverId := 20, latitude := -2300, longitude := -4700, status := "available" },
       { driverId := 21, latitude := -2300, longitude := -4700, status := "available" }] }

/-- A world in which ride 1 of passenger 10 is pending and drivers 20
(connection 1) and 21 (connection 2) plus passenger 10 (connection 3) are
registered with authenticated entries. -/
def pendingRideWorld : World :=
  { clients := [⟨1, 20, "driver", 0⟩, ⟨2, 21, "driver", 0⟩, ⟨3, 10, "passenger", 0⟩],
    wsOpen := [1, 2, 3],
    store := { exampleStore with
      rides := [{ id := 1, userId := 10, status := "pending", req := examplePayload }] } }

/-- Two concurrent accept attempts against pending ride 1: driver 20 on
connection 1 and driver 21 on connection 2, interleaved so that both
status reads land before either write (each attempt runs its blocks in
order; the schedule alternates the first two blocks, then lets each finish). -/
def c1World : World :=
  (runSchedule pendingRideWorld
    { client := ⟨1, 20, "driver", 0⟩, rideRequestId := 1 }
    { client := ⟨2, 21, "driver", 0⟩, rideRequestId := 1 }
    [true, false, true, false, true, true, true, false, false, false]).1

/-- The same two accept attempts run serially: driver 20's five blocks to
completion, then driver 21's. -/
def c1SerialWorld : World :=
  runAccept (runAccept pendingRideWorld ⟨1, 20, "driver", 0⟩ 1) ⟨2, 21, "driver", 0⟩ 1

/-- The spec's example scenario driven through the live dispatcher:
passenger 10 authenticates on connection 1, drivers 20 and 21 on
connections 2 and 3, the passenger submits a ride request, and driver 20
sends `ride_accepted` for ride 1. -/
def c2World : World :=
  runEvents (initialWorld exampleStore)
    [.connect 1 0, .message 1 (.auth 10 "passenger") 0,
     .connect 2 0, .message 2 (.auth 20 "driver") 0,
     .connect 3 0, .message 3 (.auth 21 "driver") 0,
     .message 1 (.rideRequest examplePayload) 0,
     .message 2 (.rideAccepted 1) 0]

/-- A completed ride 1 (passenger 10, driver 20, driver's row busy on it)
with both parties connected. -/
def c4World : World :=
  { clients := [⟨1, 10, "passenger", 0⟩, ⟨2, 20, "driver", 0⟩], wsOpen := [1, 2],
    store := { exampleStore with
      rides := [{ id := 1, userId := 10, driverId := some 20, status := "completed",
                  req := examplePayload }],
      driverLocations := [{ driverId := 20, latitude := 0, longitude := 0,
                            status := "busy", currentRideId := some 1 }] } }

/-- The owning passenger cancels the already-completed ride 1. -/
def c4Canceled : World :=
  handleRideCanceled c4World 1 none ⟨1, 10, "passenger", 0⟩

/-- An active ride 1 (passenger 10, driver 20, price 2500). -/
def activeRide : Ride := { id := 1, userId := 10, driverId := some 20, status := "active", amount := some 2500, req := examplePayload }

/-- Driver 20's location row while busy on ride 1. -/
def busyLoc : DriverLocation := { driverId := 20, latitude := 0, longitude := 0, status := "busy", currentRideId := some 1 }

/-- A world with active ride 1 in progress and both parties connected. -/
def c7World : World := { clients := [⟨1, 10, "passenger", 0⟩, ⟨2, 20, "driver", 0⟩], wsOpen := [1, 2], store := { exampleStore with rides := [activeRide], driverLocations := [busyLoc] } }

/-- A world with passenger 10 and drivers 20, 21 all connected and
authenticated, over a store with no driver-location rows (so the locator
finds nobody). -/
def c8World : World := { clients := [⟨1, 0, "passenger", 0⟩, ⟨1, 10, "passenger", 0⟩, ⟨2, 0, "passenger", 0⟩, ⟨2, 20, "driver", 0⟩, ⟨3, 0, "passenger", 0⟩, ⟨3, 21, "driver", 0⟩], wsOpen := [1, 2, 3], store := { users := [20, 21], passengers := [⟨10, some "Passageira P", some "(19) 99999-0000"⟩] } }

/-- Two connections open at time 0 and never speak; the heartbeat scan
fires at 70 s, when both placeholder sessions are stale. -/
def c5WorldA : World :=
  runEvents (initialWorld exampleStore) [.connect 1 0, .connect 2 0, .heartbeat 70000]

/-- Driver 20 authenticates at time 0; an application frame at 50 s
refreshes only the placeholder entry, so at the 65 s scan the driver's
authenticated entry is stale while the placeholder is fresh; the transport
close event then fires for the closed connection. -/
def c5WorldB : World :=
  runEvents (initialWorld exampleStore)
    [.connect 1 0, .message 1 (.auth 20 "driver") 0,
     .message 1 (.driverStatusUpdate "available") 50000,
     .heartbeat 65000, .closeEvent 1]

/-- Driver 20 authenticates on connection 1, then again on connection 2. -/
def c6World : World :=
  runEvents (initialWorld exampleStore)
    [.connect 1 0, .message 1 (.auth 20 "driver") 0,
     .connect 2 0, .message 2 (.auth 20 "driver") 0]

/-- Passenger 10 authenticates at time 0 and sends a bare `ping` (no
identity payload) at 5 s. -/
def c9World : World :=
  runEvents (initialWorld exampleStore)
    [.connect 1 0, .message 1 (.auth 10 "passenger") 0, .message 1 (.ping 0 "") 5000]

/-! Helper lemmas: the send and broadcast primitives touch only the sent
log, the store setters touch only the store, and the gateway updates
relate reads after a write to reads before it. -/

@[simp] theorem setStore_clients (w : World) (st : Store) :
    (setStore w st).clients = w.clients := rfl

@[simp] theorem setStore_wsOpen (w : World) (st : Store) :
    (setStore w st).wsOpen = w.wsOpen := rfl

@[simp] theorem setStore_store (w : World) (st : Store) :
    (setStore w st).store = st := rfl

@[simp] theorem setStore_sent (w : World) (st : Store) :
    (setStore w st).sent = w.sent := rfl

@[simp] theorem setClients_clients (w : World) (cs : List Client) :
    (setClients w cs).clients = cs := rfl

@[simp] theorem setClients_wsOpen (w : World) (cs : List Client) :
    (setClients w cs).wsOpen = w.wsOpen := rfl

@[simp] theorem setClients_store (w : World) (cs : List Client) :
    (setClients w cs).store = w.store := rfl

@[simp] theorem setClients_sent (w : World) (cs : List Client) :
    (setClients w cs).sent = w.sent := rfl

@[simp] theorem sendMessage_clients (w : World) (ws : Nat) (ty : MessageType)
    (pl : OutPayload) : (sendMessage w ws ty pl).clients = w.clients := by
  unfold sendMessage; split <;> rfl

@[simp] theorem sendMessage_wsOpen (w : World) (ws : Nat) (ty : MessageType)
    (pl : OutPayload) : (sendMessage w ws ty pl).wsOpen = w.wsOpen := by
  unfold sendMessage; split <;> rfl

@[simp] theorem sendMessage_store (w : World) (ws : Nat) (ty : MessageType)
    (pl : OutPayload) : (sendMessage w ws ty pl).store = w.store := by
  unfold sendMessage; split <;> rfl

@[simp] theorem sendError_clients (w : World) (ws : Nat) (s : String) :
    (sendError w ws s).clients = w.clients := by
  unfold sendError; simp

@[simp] theorem sendError_wsOpen (w : World) (ws : Nat) (s : String) :
    (sendError w ws s).wsOpen = w.wsOpen := by
  unfold sendError; simp

@[simp] theorem sendError_store (w : World) (ws : Nat) (s : String) :
    (sendError w ws s).store = w.store := by
  unfold sendError; simp

theorem sendToAll_cons (w : World) (c : Client) (cs : List Client)
    (ty : MessageType) (pl : OutPayload) :
    sendToAll w (c :: cs) ty pl = sendToAll (sendMessage w c.ws ty pl) cs ty pl := rfl

@[simp] theorem sendToAll_clients (targets : List Client) (w : World)
    (ty : MessageType) (pl : OutPayload) :
    (sendToAll w targets ty pl).clients = w.clients := by
  induction targets generalizing w with
  | nil => rfl
  | cons c cs ih => rw [sendToAll_cons, ih, sendMessage_clients]

@[simp] theorem sendToAll_wsOpen (targets : List Client) (w : World)
    (ty : MessageType) (pl : OutPayload) :
    (sendToAll w targets ty pl).wsOpen = w.wsOpen := by
  induction targets generalizing w with
  | nil => rfl
  | cons c cs ih => rw [sendToAll_cons, ih, sendMessage_wsOpen]

@[simp] theorem sendToAll_store (targets : List Client) (w : World)
    (ty : MessageType) (pl : OutPayload) :
    (sendToAll w targets ty pl).store = w.store := by
  induction targets generalizing w with
  | nil => rfl
  | cons c cs ih => rw [sendToAll_cons, ih, sendMessage_store]

@[simp] theorem broadcastToUser_clients (w : World) (u : Nat) (r : String)
    (ty : MessageType) (pl : OutPayload) :
    (broadcastToUser w u r ty pl).clients = w.clients := by
  unfold broadcastToUser; simp

@[simp] theorem broadcastToUser_wsOpen (w : World) (u : Nat) (r : String)
    (ty : MessageType) (pl : OutPayload) :
    (broadcastToUser w u r ty pl).wsOpen = w.wsOpen := by
  unfold broadcastToUser; simp

@[simp] theorem broadcastToUser_store (w : World) (u : Nat) (r : String)
    (ty : MessageType) (pl : OutPayload) :
    (broadcastToUser w u r ty pl).store = w.store := by
  unfold broadcastToUser; simp

@[simp] theorem broadcastToUserType_clients (w : World) (r : String)
    (ty : MessageType) (pl : OutPayload) (ex : List Nat) :
    (broadcastToUserType w r ty pl ex).clients = w.clients := by
  unfold broadcastToUserType; simp

@[simp] theorem broadcastToUserType_wsOpen (w : World) (r : String)
    (ty : MessageType) (pl : OutPayload) (ex : List Nat) :
    (broadcastToUserType w r ty pl ex).wsOpen = w.wsOpen := by
  unfold broadcastToUserType; simp

@[simp] theorem broadcastToUserType_store (w : World) (r : String)
    (ty : MessageType) (pl : OutPayload) (ex : List Nat) :
    (broadcastToUserType w r ty pl ex).store = w.store := by
  unfold broadcastToUserType; simp

theorem mem_sent_sendMessage {m : SentMsg} (w : World) (ws : Nat)
    (ty : MessageType) (pl : OutPayload) (h : m ∈ w.sent) :
    m ∈ (sendMessage w ws ty pl).sent := by
  unfold sendMessage
  split
  · exact List.mem_append_left _ h
  · exact h

theorem sendMessage_sent_self (w : World) (ws : Nat) (ty : MessageType)
    (pl : OutPayload) (h : ws ∈ w.wsOpen) :
    (⟨ws, ty, pl⟩ : SentMsg) ∈ (sendMessage w ws ty pl).sent := by
  unfold sendMessage
  rw [if_pos h]
  exact List.mem_append_right _ (List.mem_singleton.mpr rfl)

theorem mem_sent_sendToAll {m : SentMsg} (targets : List Client) (w : World)
    (ty : MessageType) (pl : OutPayload) (h : m ∈ w.sent) :
    m ∈ (sendToAll w targets ty pl).sent := by
  induction targets generalizing w with
  | nil => exact h
  | cons c cs ih => exact ih _ (mem_sent_sendMessage _ _ _ _ h)

theorem mem_sent_sendToAll_target {c : Client} (targets : List Client)
    (w : World) (ty : MessageType) (pl : OutPayload) (hc : c ∈ targets)
    (hws : c.ws ∈ w.wsOpen) :
    (⟨c.ws, ty, pl⟩ : SentMsg) ∈ (sendToAll w targets ty pl).sent := by
  induction targets generalizing w with
  | nil => cases hc
  | cons a as ih =>
    rw [sendToAll_cons]
    rcases List.mem_cons.mp hc with h | h
    · subst h
      exact mem_sent_sendToAll _ _ _ _ (sendMessage_sent_self _ _ _ _ hws)
    · exact ih _ h (by rw [sendMessage_wsOpen]; exact hws)

theorem mem_sent_broadcastToUser {m : SentMsg} (w : World) (u : Nat)
    (r : String) (ty : MessageType) (pl : OutPayload) (h : m ∈ w.sent) :
    m ∈ (broadcastToUser w u r ty pl).sent := by
  unfold broadcastToUser
  exact mem_sent_sendToAll _ _ _ _ h

theorem mem_sent_broadcastToUserType {m : SentMsg} (w : World) (r : String)
    (ty : MessageType) (pl : OutPayload) (ex : List Nat) (h : m ∈ w.sent) :
    m ∈ (broadcastToUserType w r ty pl ex).sent := by
  unfold broadcastToUserType
  exact mem_sent_sendToAll _ _ _ _ h

@[simp] theorem applyRideUpdate_id (r : Ride) (u : RideUpdate) :
    (applyRideUpdate r u).id = r.id := rfl

@[simp] theorem applyDLUpdate_driverId (d : DriverLocation) (u : DLUpdate) :
    (applyDLUpdate d u).driverId = d.driverId := rfl

@[simp] theorem updateRide_driverLocations (st : Store) (id : Nat) (u : RideUpdate) :
    (updateRide st id u).driverLocations = st.driverLocations := rfl

@[simp] theorem updateDriverLocation_rides (st : Store) (d : Nat) (u : DLUpdate) :
    (updateDriverLocation st d u).rides = st.rides := rfl

@[simp] theorem getRideById_updateDriverLocation (st : Store) (d : Nat)
    (u : DLUpdate) (id : Nat) :
    getRideById (updateDriverLocation st d u) id = getRideById st id := rfl

@[simp] theorem getDriverLocationByDriverId_updateRide (st : Store) (id : Nat)
    (u : RideUpdate) (d : Nat) :
    getDriverLocationByDriverId (updateRide st id u) d
      = getDriverLocationByDriverId st d := rfl

theorem getRideById_updateRide (st : Store) (id : Nat) (u : RideUpdate) :
    getRideById (updateRide st id u) id
      = (getRideById st id).map (fun r => applyRideUpdate r u) := by
  unfold getRideById updateRide
  show (st.rides.map _).find? _ = _
  induction st.rides with
  | nil => rfl
  | cons a l ih =>
    by_cases h : a.id = id
    · rw [List.map_cons, if_pos h,
        List.find?_cons_of_pos _ (by simpa using h),
        List.find?_cons_of_pos _ (by simpa [applyRideUpdate_id] using h)]
      rfl
    · rw [List.map_cons, if_neg h,
        List.find?_cons_of_neg _ (by simpa using h),
        List.find?_cons_of_neg _ (by simpa using h)]
      exact ih

theorem getDriverLocationByDriverId_updateDriverLocation (st : Store) (d : Nat)
    (u : DLUpdate) :
    getDriverLocationByDriverId (updateDriverLocation st d u) d
      = (getDriverLocationByDriverId st d).map (fun l => applyDLUpdate l u) := by
  unfold getDriverLocationByDriverId updateDriverLocation
  show (st.driverLocations.map _).find? _ = _
  induction st.driverLocations with
  | nil => rfl
  | cons a l ih =>
    by_cases h : a.driverId = d
    · rw [List.map_cons, if_pos h,
        List.find?_cons_of_pos _ (by simpa using h),
        List.find?_cons_of_pos _ (by simpa [applyDLUpdate_driverId] using h)]
      rfl
    · rw [List.map_cons, if_neg h,
        List.find?_cons_of_neg _ (by simpa using h),
        List.find?_cons_of_neg _ (by simpa using h)]
      exact ih

theorem getDriverLocationByDriverId_updateDriverLocation_ne (st : Store)
    (d e : Nat) (u : DLUpdate) (h : e ≠ d) :
    getDriverLocationByDriverId (updateDriverLocation st d u) e
      = getDriverLocationByDriverId st e := by
  unfold getDriverLocationByDriverId updateDriverLocation
  show (st.driverLocations.map _).find? _ = _
  induction st.driverLocations with
  | nil => rfl
  | cons a l ih =>
    by_cases ha : a.driverId = e
    · rw [List.map_cons, if_neg (fun hd => h (ha.symm.trans hd)),
        List.find?_cons_of_pos _ (by simpa using ha),
        List.find?_cons_of_pos _ (by simpa using ha)]
    · by_cases hd : a.driverId = d
      · rw [List.map_cons, if_pos hd,
          List.find?_cons_of_neg _ (by simpa [applyDLUpdate_driverId] using ha),
          List.find?_cons_of_neg _ (by simpa using ha)]
        exact ih
      · rw [List.map_cons, if_neg hd,
          List.find?_cons_of_neg _ (by simpa using ha),
          List.find?_cons_of_neg _ (by simpa using ha)]
        exact ih

@[simp] theorem createRideRequest_driverLocations (st : Store) (u : Nat)
    (p : RideReqPayload) (now : Nat) :
    (createRideRequest st u p now).2.driverLocations = st.driverLocations := rfl

@[simp] theorem getAvailable_createRideRequest (st : Store) (u : Nat)
    (p : RideReqPayload) (now : Nat) (lat lng radius : Int) :
    getAvailableDriversNearLocation (createRideRequest st u p now).2 lat lng radius
      = getAvailableDriversNearLocation st lat lng radius := rfl

@[simp] theorem getPassenger_createRideRequest (st : Store) (u : Nat)
    (p : RideReqPayload) (now : Nat) (i : Nat) :
    getPassenger (createRideRequest st u p now).2 i = getPassenger st i := rfl

/-! Clients-preservation: no handler mutates the registry list (only the
message loop, close handler and heartbeat scan do). -/

@[simp] theorem handleDriverLocationUpdate_clients (w : World)
    (p : LocUpdatePayload) (c : Client) :
    (handleDriverLocationUpdate w p c).clients = w.clients := by
  unfold handleDriverLocationUpdate
  dsimp only
  repeat' split
  all_goals simp

@[simp] theorem handleDriverStatusUpdate_clients (w : World) (s : String)
    (c : Client) : (handleDriverStatusUpdate w s c).clients = w.clients := by
  unfold handleDriverStatusUpdate
  try dsimp only
  repeat' split
  all_goals simp

@[simp] theorem simulateRideRequestForTesting_clients (w : World)
    (p : RideReqPayload) (c : Client) (now : Nat) :
    (simulateRideRequestForTesting w p c now).clients = w.clients := by
  unfold simulateRideRequestForTesting
  simp

@[simp] theorem broadcastFold_clients (l : List DriverLocation) (w : World)
    (r : String) (ty : MessageType) (pl : OutPayload) :
    (l.foldl (fun acc d => broadcastToUser acc d.driverId r ty pl) w).clients
      = w.clients := by
  induction l generalizing w with
  | nil => rfl
  | cons d ds ih => rw [List.foldl_cons, ih, broadcastToUser_clients]

@[simp] theorem handleRideRequest_clients (w : World) (p : RideReqPayload)
    (c : Client) (now : Nat) :
    (handleRideRequest w p c now).clients = w.clients := by
  unfold handleRideRequest
  dsimp only
  repeat' split
  all_goals simp

@[simp] theorem acceptStep_clients (w : World) (a : AcceptAttempt) :
    (acceptStep w a).1.clients = w.clients := by
  unfold acceptStep
  dsimp only
  repeat' split
  all_goals simp

@[simp] theorem acceptStep_wsOpen (w : World) (a : AcceptAttempt) :
    (acceptStep w a).1.wsOpen = w.wsOpen := by
  unfold acceptStep
  dsimp only
  repeat' split
  all_goals simp

@[simp] theorem runAccept_clients (w : World) (c : Client) (rid : Nat) :
    (runAccept w c rid).clients = w.clients := by
  unfold runAccept
  simp

@[simp] theorem handleRideStarted_clients (w : World) (rid : Nat) (c : Client)
    (now : Nat) : (handleRideStarted w rid c now).clients = w.clients := by
  unfold handleRideStarted
  dsimp only
  repeat' split
  all_goals simp

@[simp] theorem handleRideCompleted_clients (w : World) (rid : Nat) (c : Client)
    (now : Nat) : (handleRideCompleted w rid c now).clients = w.clients := by
  unfold handleRideCompleted
  dsimp only
  repeat' split
  all_goals simp

@[simp] theorem handleRideCanceled_clients (w : World) (rid : Nat)
    (reason : Option String) (c : Client) :
    (handleRideCanceled w rid reason c).clients = w.clients := by
  unfold handleRideCanceled
  dsimp only
  repeat' split
  all_goals simp

@[simp] theorem handleMessage_clients (w : World) (m : InMsg) (c : Client)
    (now : Nat) : (handleMessage w m c now).clients = w.clients := by
  unfold handleMessage
  try dsimp only
  repeat' split
  all_goals simp

@[simp] theorem driverBootstrap_clients (w : World) (u : Nat) :
    (driverBootstrap w u).clients = w.clients := by
  unfold driverBootstrap
  try dsimp only
  repeat' split
  all_goals simp

/-! The at-most-one-session-per-identity invariant: `pairCount` counts the
registry entries bound to a given `(userId, userType)` pair. -/

/-- Number of registry entries bound to `(u, r)`. -/
def pairCount (cs : List Client) (u : Nat) (r : String) : Nat :=
  (cs.filter (fun c => c.userId = u ∧ c.userType = r)).length

theorem pairCount_nil (u : Nat) (r : String) : pairCount [] u r = 0 := rfl

theorem pairCount_cons (c : Client) (cs : List Client) (u : Nat) (r : String) :
    pairCount (c :: cs) u r
      = pairCount cs u r + (if c.userId = u ∧ c.userType = r then 1 else 0) := by
  unfold pairCount
  rw [List.filter_cons]
  by_cases h : c.userId = u ∧ c.userType = r
  · simp [h]
  · simp [h]

theorem pairCount_append (l₁ l₂ : List Client) (u : Nat) (r : String) :
    pairCount (l₁ ++ l₂) u r = pairCount l₁ u r + pairCount l₂ u r := by
  unfold pairCount
  rw [List.filter_append, List.length_append]

theorem pairCount_le_of_sublist {l₁ l₂ : List Client} (h : List.Sublist l₁ l₂)
    (u : Nat) (r : String) : pairCount l₁ u r ≤ pairCount l₂ u r :=
  (h.filter _).length_le

theorem pairCount_touchFirst (cs : List Client) (ws now : Nat) (u : Nat)
    (r : String) : pairCount (touchFirst cs ws now) u r = pairCount cs u r := by
  induction cs with
  | nil => rfl
  | cons c cs ih =>
    unfold touchFirst
    by_cases h : c.ws = ws
    · rw [if_pos h, pairCount_cons, pairCount_cons]
    · rw [if_neg h, pairCount_cons, pairCount_cons, ih]

theorem removeFirstWs_sublist (cs : List Client) (ws : Nat) :
    List.Sublist (removeFirstWs cs ws) cs := by
  induction cs with
  | nil => exact List.Sublist.refl _
  | cons c cs ih =>
    unfold removeFirstWs
    by_cases h : c.ws = ws
    · rw [if_pos h]
      exact List.sublist_cons_self c cs
    · rw [if_neg h]
      exact ih.cons₂ c

theorem scanFrom_sublist (now : Nat) (k : Nat) :
    ∀ (cs : List Client) (opn : List Nat) (i : Nat),
      List.Sublist (scanFrom now cs opn i k).1 cs := by
  induction k with
  | zero => intro cs opn i; exact List.Sublist.refl _
  | succ k ih =>
    intro cs opn i
    unfold scanFrom
    split
    · dsimp only
      split
      · exact (ih _ _ _).trans (List.eraseIdx_sublist cs i)
      · exact ih _ _ _
    · exact List.Sublist.refl _

theorem pairCount_filter_not_pair (cs : List Client) (u : Nat) (r : String) :
    pairCount (cs.filter (fun c => ¬(c.userId = u ∧ c.userType = r))) u r = 0 := by
  induction cs with
  | nil => rfl
  | cons c cs ih =>
    rw [List.filter_cons]
    by_cases h : c.userId = u ∧ c.userType = r
    · rw [if_neg (by simp [h])]
      exact ih
    · rw [if_pos (by simp [h]), pairCount_cons, ih]
      simp [h]

theorem pairCount_filter_append_single (cs : List Client) (q : Client → Bool)
    (c0 : Client) (u : Nat) (r : String) (h : pairCount cs u r ≤ 1)
    (hq : ∀ c : Client, c.userId = c0.userId ∧ c.userType = c0.userType → q c = false) :
    pairCount (cs.filter q ++ [c0]) u r ≤ 1 := by
  rw [pairCount_append]
  by_cases hp : c0.userId = u ∧ c0.userType = r
  · have hz : ∀ l : List Client, pairCount (l.filter q) u r = 0 := by
      intro l
      induction l with
      | nil => rfl
      | cons a l ih =>
        rw [List.filter_cons]
        by_cases ha : q a = true
        · rw [if_pos ha, pairCount_cons, ih]
          have hna : ¬(a.userId = u ∧ a.userType = r) := by
            intro hpa
            have hfa : q a = false := hq a ⟨hpa.1.trans hp.1.symm, hpa.2.trans hp.2.symm⟩
            rw [hfa] at ha
            cases ha
          simp [hna]
        · rw [if_neg ha]
          exact ih
    have hz := hz cs
    have h2 : pairCount [c0] u r ≤ 1 := by
      rw [pairCount_cons, pairCount_nil]
      split <;> omega
    omega
  · have h1 : pairCount (cs.filter q) u r ≤ 1 :=
      le_trans (pairCount_le_of_sublist (List.filter_sublist cs) u r) h
    have h2 : pairCount [c0] u r = 0 := by
      rw [pairCount_cons, pairCount_nil]
      simp [hp]
    omega

theorem pairCount_authBranch (w : World) (ws u0 : Nat) (r0 : String) (now : Nat)
    (u : Nat) (r : String) (h : pairCount w.clients u r ≤ 1) :
    pairCount (authBranch w ws u0 r0 now).clients u r ≤ 1 := by
  unfold authBranch
  try dsimp only
  repeat' split
  all_goals first
    | simpa using h
    | (simp only [driverBootstrap_clients]
       exact pairCount_filter_append_single w.clients _ _ u r h
         (fun c hc => by simp [hc.1, hc.2]))

theorem pairCount_processEvent (w : World) (e : Event) (u : Nat) (r : String)
    (hu : u ≠ 0) (h : pairCount w.clients u r ≤ 1) :
    pairCount (processEvent w e).clients u r ≤ 1 := by
  cases e with
  | connect ws now =>
    show pairCount (w.clients ++ [⟨ws, 0, "passenger", now⟩]) u r ≤ 1
    rw [pairCount_append, pairCount_cons, pairCount_nil]
    have : ¬((0 : Nat) = u ∧ ("passenger" : String) = r) := by
      intro hc
      exact hu hc.1.symm
    simp only [if_neg this]
    omega
  | message ws m now =>
    show pairCount (onMessage w ws m now).clients u r ≤ 1
    cases m
    case auth u0 r0 =>
      unfold onMessage
      exact pairCount_authBranch w ws u0 r0 now u r h
    case ping u0 r0 =>
      unfold onMessage
      exact pairCount_authBranch w ws u0 r0 now u r h
    all_goals
      unfold onMessage
      try dsimp only
      split
      · simpa using h
      · try dsimp only
        simpa [pairCount_touchFirst] using h
  | closeEvent ws =>
    show pairCount (onClose w ws).clients u r ≤ 1
    unfold onClose
    try dsimp only
    split
    · simpa using h
    · refine le_trans ?_ h
      simp only [setClients_clients]
      split
      all_goals
        try simp only [setStore_clients]
        try dsimp only
        exact pairCount_le_of_sublist (removeFirstWs_sublist _ _) u r
  | heartbeat now =>
    show pairCount (heartbeatScan w now).clients u r ≤ 1
    unfold heartbeatScan
    exact le_trans (pairCount_le_of_sublist (scanFrom_sublist now _ _ _ _) u r) h

theorem pairCount_runEvents (evs : List Event) (w : World) (u : Nat)
    (r : String) (hu : u ≠ 0) (h : pairCount w.clients u r ≤ 1) :
    pairCount (runEvents w evs).clients u r ≤ 1 := by
  induction evs generalizing w with
  | nil => exact h
  | cons e evs ih => exact ih _ (pairCount_processEvent w e u r hu h)

/-- C1, counterexample. The claim's "exactly one concurrent
`ride_accepted` attempt succeeds, because the status check-and-set is a
single atomic conditional update" is false of the code: the accept handler
is a read–check–write across `await` boundaries whose ride update is
unconditional, so under the interleaving in `c1World` (both drivers read
`pending` before either writes) drivers 20 and 21 **both** receive the
success frame, and the later writer silently overwrites `driverId` to 21. -/
theorem c1_counterexample :
    (⟨1, .ride_accepted, .rideAcceptedDriver true 1 "Corrida aceita com sucesso"⟩ : SentMsg)
      ∈ c1World.sent ∧
    (⟨2, .ride_accepted, .rideAcceptedDriver true 1 "Corrida aceita com sucesso"⟩ : SentMsg)
      ∈ c1World.sent ∧
    (getRideById c1World.store 1).map (fun r => (r.status, r.driverId))
      = some ("accepted", some 21) := by
  decide

/-- C2: in the spec's example scenario run through the live dispatcher
(`c2World`), driver 20's `ride_accepted` frame is matched to the
unauthenticated placeholder entry of its connection (userId 0, role
passenger), so the driver receives the only-drivers error, no
`ride_accepted` or `ride_rejected` frame is sent to anyone, and ride 1
stays `pending` with no driver — refuting the claimed
success/notification/rejection outcome. -/
theorem c2_placeholder_identity :
    (⟨2, .error, .errorMsg "Apenas motoristas podem aceitar corridas"⟩ : SentMsg)
      ∈ c2World.sent ∧
    c2World.sent.all (fun m => m.type != .ride_accepted && m.type != .ride_rejected)
      = true ∧
    (getRideById c2World.store 1).map (fun r => (r.status, r.driverId))
      = some ("pending", none) := by
  decide

/-- C4, counterexample. A `ride_canceled` frame from the owning passenger
against the **completed** ride 1 does mutate it: the cancel handler has no
status precondition, so the status becomes `canceled` and the assigned
driver's row is rewritten to available — refuting "no inbound frame
changes the status of a completed ride". -/
theorem c4_counterexample :
    (getRideById c4World.store 1).map (fun r => r.status) = some "completed" ∧
    (getRideById c4Canceled.store 1).map (fun r => r.status) = some "canceled" ∧
    (getDriverLocationByDriverId c4Canceled.store 20).map
      (fun d => (d.status, d.currentRideId)) = some ("available", none) := by
  decide

/-- C5, counterexample. (a) In `c5WorldA` two adjacent sessions are both
stale at the 70 s scan, yet the session on connection 2 survives it: the
scan splices inside a `forEach`, skipping the entry that slides into the
removed slot. (b) In `c5WorldB` driver 20's session is evicted by the
scan, but the driver's `DriverLocation.status` is still `available`
afterwards (including after the transport close event): the scan performs
no store update, and the close handler found only the passenger-typed
placeholder. -/
theorem c5_counterexample :
    c5WorldA.clients = [⟨2, 0, "passenger", 0⟩] ∧
    c5WorldB.clients = [] ∧
    (getDriverLocationByDriverId c5WorldB.store 20).map (fun d => d.status)
      = some "available" := by
  decide

/-- C6, counterexample. After driver 20 authenticates on connection 2
(`c6World`), the previous binding on connection 1 is gone from the
registry, but connection 1's transport is **not** closed — the auth branch
only filters the registry list — refuting the claim's "its transport
connection is closed". -/
theorem c6_counterexample :
    (1 : Nat) ∈ c6World.wsOpen ∧
    c6World.clients.all (fun c => !(c.ws == 1 && c.userId == 20)) = true ∧
    (⟨2, 20, "driver", 0⟩ : Client) ∈ c6World.clients := by
  decide

/-- C9: a bare `ping` from the authenticated passenger in `c9World` is
intercepted by the auth branch (`data.type === 'auth' || ping`), which
rejects its empty payload with the invalid-auth-data error; no `pong` is
ever sent (the dispatcher's pong case is unreachable) and no registry
entry's `lastActivity` is refreshed — refuting ping → pong with activity
refresh. -/
theorem c9_ping_no_pong :
    (⟨1, .error, .errorMsg "Dados de autenticação inválidos"⟩ : SentMsg)
      ∈ c9World.sent ∧
    c9World.sent.all (fun m => m.type != .pong) = true ∧
    c9World.clients.all (fun c => c.lastActivity == 0) = true := by
  decide

/-- C6 (amended): at most one registry entry per authenticated
`(userId, role)` pair — over every event trace from the empty registry,
`pairCount` stays at most 1 for every pair with a non-zero user id; a
second authentication for the pair drops the earlier binding from the
registry (but, per the counterexample, does not close its transport). -/
theorem c6_registry_uniqueness (st : Store) (evs : List Event) (u : Nat)
    (r : String) (hu : u ≠ 0) :
    pairCount (runEvents (initialWorld st) evs).clients u r ≤ 1 :=
  pairCount_runEvents evs (initialWorld st) u r hu
    (by rw [show (initialWorld st).clients = [] from rfl, pairCount_nil]; omega)

/-- Witness for C6's amended theorem at the double-authentication trace. -/
theorem c6_registry_uniqueness_witness :
    (20 : Nat) ≠ 0 ∧
    pairCount (runEvents (initialWorld exampleStore)
      [.connect 1 0, .message 1 (.auth 20 "driver") 0,
       .connect 2 0, .message 2 (.auth 20 "driver") 0]).clients 20 "driver" ≤ 1 :=
  ⟨by decide,
   c6_registry_uniqueness exampleStore
     [.connect 1 0, .message 1 (.auth 20 "driver") 0,
      .connect 2 0, .message 2 (.auth 20 "driver") 0] 20 "driver" (by decide)⟩

/-- C10: an `auth` frame with a truthy user id and a role that is neither
`driver` nor `passenger` (e.g. `admin`) succeeds with no store access: the
store is returned unchanged whatever it contains (no user-existence check
runs), `auth_success` is emitted, and the session is registered under the
claimed identity. -/
theorem c10_other_roles_skip_lookup (w : World) (ws userId : Nat)
    (userType : String) (now : Nat) (hu : userId ≠ 0) (hne : userType ≠ "")
    (hd : userType ≠ "driver") (hp : userType ≠ "passenger") :
    (authBranch w ws userId userType now).store = w.store ∧
    (⟨ws, .auth_success, .authSuccess userId userType⟩ : SentMsg)
      ∈ (authBranch w ws userId userType now).sent ∧
    (⟨ws, userId, userType, now⟩ : Client)
      ∈ (authBranch w ws userId userType now).clients := by
  unfold authBranch
  rw [if_neg (by simp [hu, hne])]
  try dsimp only
  rw [if_neg hd, if_neg hp]
  rw [if_neg (by simp)]
  rw [if_neg hd]
  exact ⟨rfl, List.mem_append_right _ (by simp), List.mem_append_right _ (by simp)⟩

/-- Witness for C10 at role admin, user 77, over the example store (in
which user 77 exists in no table). -/
theorem c10_other_roles_skip_lookup_witness :
    ((77 : Nat) ≠ 0 ∧ ("admin" : String) ≠ "" ∧ ("admin" : String) ≠ "driver" ∧
      ("admin" : String) ≠ "passenger") ∧
    ((authBranch (initialWorld exampleStore) 1 77 "admin" 0).store
        = (initialWorld exampleStore).store ∧
    (⟨1, .auth_success, .authSuccess 77 "admin"⟩ : SentMsg)
      ∈ (authBranch (initialWorld exampleStore) 1 77 "admin" 0).sent ∧
    (⟨1, 77, "admin", 0⟩ : Client)
      ∈ (authBranch (initialWorld exampleStore) 1 77 "admin" 0).clients) :=
  ⟨by decide,
   c10_other_roles_skip_lookup (initialWorld exampleStore) 1 77 "admin" 0
     (by decide) (by decide) (by decide) (by decide)⟩

/-- Helper: a driver-typed accept against an existing non-pending ride is
exactly one error send. -/
theorem runAccept_nonpending (w : World) (c : Client) (rid : Nat)
    (ride : Ride) (hdrv : c.userType = "driver")
    (hride : getRideById w.store rid = some ride)
    (hst : ride.status ≠ "pending") :
    runAccept w c rid
      = sendError w c.ws "Esta corrida não está mais disponível" := by
  have e1 : acceptStep w ⟨c, rid, 0, none, none⟩
      = (w, ⟨c, rid, 1, some ride, none⟩) := by
    unfold acceptStep
    try dsimp only
    rw [if_neg (by simp [hdrv]), hride]
  have e2 : acceptStep w ⟨c, rid, 1, some ride, none⟩
      = (sendError w c.ws "Esta corrida não está mais disponível",
         ⟨c, rid, 5, some ride, none⟩) := by
    unfold acceptStep
    try dsimp only
    rw [if_pos hst]
  have e3 : ∀ w' : World, acceptStep w' ⟨c, rid, 5, some ride, none⟩
      = (w', ⟨c, rid, 5, some ride, none⟩) := fun w' => rfl
  unfold runAccept
  rw [show ({ client := c, rideRequestId := rid } : AcceptAttempt)
    = ⟨c, rid, 0, none, none⟩ from rfl]
  rw [e1]
  dsimp only
  rw [e2]
  dsimp only
  rw [e3, e3, e3, e3]

/-- Helper: a driver-typed accept against a pending ride by an unoccupied
driver runs the full accept branch: the unconditional ride update to
(driver, accepted), the location update to (busy, this ride), the
passenger notification, the rejected fan-out to the other drivers, and the
success confirmation. -/
theorem runAccept_success (w : World) (c : Client) (rid : Nat) (ride : Ride)
    (l : DriverLocation) (hdrv : c.userType = "driver")
    (hride : getRideById w.store rid = some ride)
    (hpend : ride.status = "pending")
    (hdl : getDriverLocationByDriverId w.store c.userId = some l)
    (hfree : l.currentRideId = none) :
    runAccept w c rid =
      (let st2 := updateDriverLocation
        (updateRide w.store rid { driverId := some c.userId, status := some "accepted" })
        c.userId { currentRideId := some (some rid), status := some "busy" }
      let w2 := setStore w st2
      let w3 := if ride.userId ≠ 0 then
          broadcastToUser w2 ride.userId "passenger" .ride_accepted
            (.rideAcceptedPassenger rid c.userId "Sua corrida foi aceita por um motorista")
        else w2
      let w4 := broadcastToUserType w3 "driver" .ride_rejected
        (.rideRejected rid "Esta corrida foi aceita por outro motorista") [c.userId]
      sendMessage w4 c.ws .ride_accepted
        (.rideAcceptedDriver true rid "Corrida aceita com sucesso")) := by
  have e1 : acceptStep w ⟨c, rid, 0, none, none⟩
      = (w, ⟨c, rid, 1, some ride, none⟩) := by
    unfold acceptStep
    try dsimp only
    rw [if_neg (by simp [hdrv]), hride]
  have e2 : acceptStep w ⟨c, rid, 1, some ride, none⟩
      = (w, ⟨c, rid, 2, some ride, some l⟩) := by
    unfold acceptStep
    try dsimp only
    rw [if_neg (by simp [hpend]), hdl]
  have e3 : acceptStep w ⟨c, rid, 2, some ride, some l⟩
      = (setStore w (updateRide w.store rid
          { driverId := some c.userId, status := some "accepted" }),
         ⟨c, rid, 3, some ride, some l⟩) := by
    unfold acceptStep
    try dsimp only
    rw [if_neg (by simp [hfree])]
  have e4 : ∀ W : World, acceptStep W ⟨c, rid, 3, some ride, some l⟩
      = (setStore W (updateDriverLocation W.store c.userId
          { currentRideId := some (some rid), status := some "busy" }),
         ⟨c, rid, 4, some ride, some l⟩) := fun W => rfl
  have e5 : ∀ W : World, acceptStep W ⟨c, rid, 4, some ride, some l⟩
      = (sendMessage
          (broadcastToUserType
            (if ride.userId ≠ 0 then
              broadcastToUser W ride.userId "passenger" .ride_accepted
                (.rideAcceptedPassenger rid c.userId
                  "Sua corrida foi aceita por um motorista")
            else W)
            "driver" .ride_rejected
            (.rideRejected rid "Esta corrida foi aceita por outro motorista")
            [c.userId])
          c.ws .ride_accepted
          (.rideAcceptedDriver true rid "Corrida aceita com sucesso"),
         ⟨c, rid, 5, some ride, some l⟩) := fun W => rfl
  have e6 : ∀ W : World, acceptStep W ⟨c, rid, 5, some ride, some l⟩
      = (W, ⟨c, rid, 5, some ride, some l⟩) := fun W => rfl
  unfold runAccept
  rw [show ({ client := c, rideRequestId := rid } : AcceptAttempt)
    = ⟨c, rid, 0, none, none⟩ from rfl]
  rw [e1]
  dsimp only
  rw [e2]
  dsimp only
  rw [e3]
  dsimp only
  rw [e4]
  dsimp only
  rw [e5]
  dsimp only
  rw [e6]
  try dsimp only
  split
  all_goals rfl

/-- C3: a `ride_accepted` invocation by a connected driver-typed client
naming an existing ride whose status is not `pending` replies exactly one
error frame — the ride-no-longer-available message — and performs no
mutation: the store is returned unchanged. -/
theorem c3_state_conflict_no_mutation (w : World) (c : Client) (rid : Nat)
    (ride : Ride) (hdrv : c.userType = "driver") (hws : c.ws ∈ w.wsOpen)
    (hride : getRideById w.store rid = some ride)
    (hst : ride.status ≠ "pending") :
    (runAccept w c rid).store = w.store ∧
    (runAccept w c rid).sent = w.sent
      ++ [⟨c.ws, .error, .errorMsg "Esta corrida não está mais disponível"⟩] := by
  rw [runAccept_nonpending w c rid ride hdrv hride hst]
  refine ⟨by simp, ?_⟩
  unfold sendError sendMessage
  rw [if_pos hws]

/-- Witness for C3: driver 20 re-accepts the already-completed ride 1 of
`c4World`. -/
theorem c3_state_conflict_no_mutation_witness :
    ((⟨2, 20, "driver", 0⟩ : Client).userType = "driver" ∧
      (⟨2, 20, "driver", 0⟩ : Client).ws ∈ c4World.wsOpen ∧
      (getRideById c4World.store 1).isSome ∧
      (getRideById c4World.store 1).map (fun r => r.status) ≠ some "pending") ∧
    ((runAccept c4World ⟨2, 20, "driver", 0⟩ 1).store = c4World.store ∧
     (runAccept c4World ⟨2, 20, "driver", 0⟩ 1).sent = c4World.sent
       ++ [⟨2, .error, .errorMsg "Esta corrida não está mais disponível"⟩]) :=
  ⟨by decide,
   c3_state_conflict_no_mutation c4World ⟨2, 20, "driver", 0⟩ 1
     { id := 1, userId := 10, driverId := some 20, status := "completed",
       req := examplePayload }
     (by decide) (by decide) (by decide) (by decide)⟩

/-- C4 (amended): `ride_started` and `ride_completed` guard on the ride's
status, but `ride_canceled` does not — for every existing ride, terminal
(`completed`/`canceled`) included, a `ride_canceled` frame from the owning
passenger or the assigned driver sets the status to `canceled`; terminal
states are therefore not terminal under cancellation. -/
theorem c4_cancel_ignores_terminal (w : World) (c : Client) (rid : Nat)
    (ride : Ride) (hride : getRideById w.store rid = some ride)
    (_hterm : ride.status = "completed" ∨ ride.status = "canceled")
    (hauth : (c.userType = "passenger" ∧ ride.userId = c.userId) ∨
             (c.userType = "driver" ∧ ride.driverId = some c.userId)) :
    (getRideById (handleRideCanceled w rid none c).store rid).map
      (fun r => r.status) = some "canceled" := by
  have hg1 : ¬(c.userType = "passenger" ∧ ride.userId ≠ c.userId) := by
    rcases hauth with ⟨_, he⟩ | ⟨hd, _⟩
    · exact fun hx => hx.2 he
    · intro hx
      rw [hd] at hx
      exact absurd hx.1 (by decide)
  have hg2 : ¬(c.userType = "driver" ∧ ride.driverId ≠ some c.userId) := by
    rcases hauth with ⟨hp, _⟩ | ⟨_, he⟩
    · intro hx
      rw [hp] at hx
      exact absurd hx.1 (by decide)
    · exact fun hx => hx.2 he
  unfold handleRideCanceled
  rw [hride]
  try dsimp only
  rw [if_neg hg1, if_neg hg2]
  try dsimp only
  repeat' split
  all_goals simp [getRideById_updateRide, hride, applyRideUpdate]

/-- Witness for C4's amended theorem: the owning passenger cancels the
completed ride of `c4World`. -/
theorem c4_cancel_ignores_terminal_witness :
    ((getRideById c4World.store 1).isSome ∧
      (getRideById c4World.store 1).map (fun r => r.status) = some "completed") ∧
    (getRideById (handleRideCanceled c4World 1 none
        ⟨1, 10, "passenger", 0⟩).store 1).map (fun r => r.status)
      = some "canceled" :=
  ⟨by decide,
   c4_cancel_ignores_terminal c4World ⟨1, 10, "passenger", 0⟩ 1
     { id := 1, userId := 10, driverId := some 20, status := "completed",
       req := examplePayload }
     (by decide) (Or.inl (by decide)) (Or.inl (by decide))⟩

/-- C7: when the assigned driver completes an `active` ride, the ride ends
`completed` with its end timestamp set to now, and the driver's location
row is freed: status `available`, `currentRideId` null. -/
theorem c7_completion_frees_driver (w : World) (c : Client) (rid : Nat)
    (ride : Ride) (dl : DriverLocation) (now : Nat)
    (hdrv : c.userType = "driver")
    (hride : getRideById w.store rid = some ride)
    (hassigned : ride.driverId = some c.userId)
    (hactive : ride.status = "active")
    (hdl : getDriverLocationByDriverId w.store c.userId = some dl) :
    (getRideById (handleRideCompleted w rid c now).store rid).map
        (fun r => (r.status, r.endTime)) = some ("completed", some now) ∧
    (getDriverLocationByDriverId (handleRideCompleted w rid c now).store
        c.userId).map (fun d => (d.status, d.currentRideId))
      = some ("available", none) := by
  unfold handleRideCompleted
  rw [if_neg (by simp [hdrv]), hride]
  try dsimp only
  rw [if_neg (by simp [hassigned]), if_neg (by simp [hactive])]
  try dsimp only
  refine ⟨?_, ?_⟩
  · repeat' split
    all_goals simp [getRideById_updateRide, hride, applyRideUpdate]
  · repeat' split
    all_goals simp [getDriverLocationByDriverId_updateDriverLocation, hdl,
      applyDLUpdate]

/-- Witness for C7: driver 20 completes the active ride of `c7World` at
time 999. -/
theorem c7_completion_frees_driver_witness :
    ((⟨2, 20, "driver", 0⟩ : Client).userType = "driver" ∧
      getRideById c7World.store 1 = some activeRide ∧
      activeRide.driverId = some 20 ∧ activeRide.status = "active" ∧
      getDriverLocationByDriverId c7World.store 20 = some busyLoc) ∧
    ((getRideById (handleRideCompleted c7World 1 ⟨2, 20, "driver", 0⟩ 999).store
        1).map (fun r => (r.status, r.endTime)) = some ("completed", some 999) ∧
     (getDriverLocationByDriverId (handleRideCompleted c7World 1
        ⟨2, 20, "driver", 0⟩ 999).store 20).map
        (fun d => (d.status, d.currentRideId)) = some ("available", none)) :=
  ⟨by decide,
   c7_completion_frees_driver c7World ⟨2, 20, "driver", 0⟩ 1 activeRide busyLoc
     999 (by decide) (by decide) (by decide) (by decide) (by decide)⟩

/-- Looking up the freshly created ride finds exactly the inserted pending
row, provided the store's next id is fresh. -/
theorem getRideById_createRideRequest_self (st : Store) (u : Nat)
    (p : RideReqPayload) (now : Nat)
    (hfresh : ∀ r ∈ st.rides, r.id ≠ st.nextRideId) :
    getRideById (createRideRequest st u p now).2 st.nextRideId
      = some { id := st.nextRideId, userId := u, status := "pending",
               requestTime := now, req := p } := by
  unfold createRideRequest getRideById
  try dsimp only
  rw [List.find?_append]
  have hnone : st.rides.find? (fun r => r.id = st.nextRideId) = none := by
    rw [List.find?_eq_none]
    intro a ha
    simp [hfresh a ha]
  rw [hnone]
  simp

/-- C8: a `ride_request` handled for a passenger-typed client when the
Driver Locator returns no available driver within the 10 km radius still
creates the pending ride row, pushes a `new_ride_request` frame to every
currently connected driver-typed session, and acknowledges the requester. -/
theorem c8_fallback_broadcast (w : World) (c : Client) (p : RideReqPayload)
    (now : Nat) (hpass : c.userType = "passenger")
    (hfresh : ∀ r ∈ w.store.rides, r.id ≠ w.store.nextRideId)
    (hnone : getAvailableDriversNearLocation w.store p.originLatitude
      p.originLongitude 10000 = []) :
    (getRideById (handleRideRequest w p c now).store w.store.nextRideId).map
        (fun r => (r.userId, r.status)) = some (c.userId, "pending") ∧
    (∀ d ∈ w.clients, d.userType = "driver" → d.ws ∈ w.wsOpen →
      ∃ pl : OutPayload, (⟨d.ws, .new_ride_request, pl⟩ : SentMsg)
        ∈ (handleRideRequest w p c now).sent) ∧
    (c.ws ∈ w.wsOpen →
      (⟨c.ws, .ride_request, .rideRequestAck true w.store.nextRideId
          "Solicitação de corrida criada com sucesso"⟩ : SentMsg)
        ∈ (handleRideRequest w p c now).sent) := by
  have hcr : createRideRequest w.store c.userId p now
      = ({ id := w.store.nextRideId, userId := c.userId, status := "pending",
           requestTime := now, req := p },
         (createRideRequest w.store c.userId p now).2) := rfl
  unfold handleRideRequest
  rw [if_neg (by simp [hpass]), if_neg (by simp [hpass])]
  rw [hcr]
  try dsimp only
  simp only [setStore_store, setStore_clients, setStore_wsOpen,
    getAvailable_createRideRequest, hnone, List.isEmpty_nil, if_true]
  refine ⟨?_, ?_, ?_⟩
  · simp only [sendMessage_store, sendToAll_store, setStore_store]
    rw [getRideById_createRideRequest_self w.store c.userId p now hfresh]
    rfl
  · intro d hd hdrv hws
    refine ⟨_, mem_sent_sendMessage _ _ _ _ (mem_sent_sendToAll_target _ _ _ _
      (List.mem_filter.mpr ⟨hd, by simp [hdrv]⟩) ?_)⟩
    simpa using hws
  · intro hws
    apply sendMessage_sent_self
    simpa using hws

/-- Witness for C8: passenger 10 requests a ride over a store with no
driver locations at all while drivers 20 and 21 are connected. -/
theorem c8_fallback_broadcast_witness :
    ((⟨1, 10, "passenger", 0⟩ : Client).userType = "passenger" ∧
      (∀ r ∈ c8World.store.rides, r.id ≠ c8World.store.nextRideId) ∧
      getAvailableDriversNearLocation c8World.store
        examplePayload.originLatitude examplePayload.originLongitude 10000
        = []) ∧
    ((getRideById (handleRideRequest c8World examplePayload
        ⟨1, 10, "passenger", 0⟩ 0).store c8World.store.nextRideId).map
        (fun r => (r.userId, r.status)) = some (10, "pending") ∧
    (∀ d ∈ c8World.clients, d.userType = "driver" → d.ws ∈ c8World.wsOpen →
      ∃ pl : OutPayload, (⟨d.ws, .new_ride_request, pl⟩ : SentMsg)
        ∈ (handleRideRequest c8World examplePayload
            ⟨1, 10, "passenger", 0⟩ 0).sent) ∧
    ((⟨1, 10, "passenger", 0⟩ : Client).ws ∈ c8World.wsOpen →
      (⟨1, .ride_request, .rideRequestAck true c8World.store.nextRideId
          "Solicitação de corrida criada com sucesso"⟩ : SentMsg)
        ∈ (handleRideRequest c8World examplePayload
            ⟨1, 10, "passenger", 0⟩ 0).sent)) :=
  ⟨⟨by decide, by decide, by decide⟩,
   c8_fallback_broadcast c8World ⟨1, 10, "passenger", 0⟩ examplePayload 0
     (by decide) (by decide) (by decide)⟩

/-- C1 (amended): when the two accept attempts are processed serially —
each handler runs all its blocks to completion before the next starts —
exactly one succeeds: the first driver gets the success frame, the ride
ends `accepted` with the first driver's id, and the later attempt is
answered with the ride-no-longer-available error. (Per the counterexample,
this exactly-one outcome is *not* preserved under interleaving, because
the check-and-set is not atomic.) -/
theorem c1_serial_exactly_one (w : World) (d1 d2 : Client) (rid : Nat)
    (ride : Ride) (l1 : DriverLocation)
    (h1 : d1.userType = "driver") (h2 : d2.userType = "driver")
    (hride : getRideById w.store rid = some ride)
    (hpend : ride.status = "pending")
    (hl1 : getDriverLocationByDriverId w.store d1.userId = some l1)
    (hfree1 : l1.currentRideId = none)
    (hws1 : d1.ws ∈ w.wsOpen) (hws2 : d2.ws ∈ w.wsOpen) :
    (⟨d1.ws, .ride_accepted, .rideAcceptedDriver true rid
        "Corrida aceita com sucesso"⟩ : SentMsg)
      ∈ (runAccept (runAccept w d1 rid) d2 rid).sent ∧
    (⟨d2.ws, .error, .errorMsg "Esta corrida não está mais disponível"⟩ : SentMsg)
      ∈ (runAccept (runAccept w d1 rid) d2 rid).sent ∧
    (getRideById (runAccept (runAccept w d1 rid) d2 rid).store rid).map
      (fun r => (r.status, r.driverId)) = some ("accepted", some d1.userId) := by
  have hrun1 := runAccept_success w d1 rid ride l1 h1 hride hpend hl1 hfree1
  have hstore1 : (runAccept w d1 rid).store
      = updateDriverLocation (updateRide w.store rid
          { driverId := some d1.userId, status := some "accepted" })
        d1.userId { currentRideId := some (some rid), status := some "busy" } := by
    rw [hrun1]
    try dsimp only
    split
    all_goals simp
  have hride1 : getRideById (runAccept w d1 rid).store rid
      = some (applyRideUpdate ride
          { driverId := some d1.userId, status := some "accepted" }) := by
    rw [hstore1, getRideById_updateDriverLocation, getRideById_updateRide, hride]
    rfl
  have hwsOpen1 : (runAccept w d1 rid).wsOpen = w.wsOpen := by
    rw [hrun1]
    try dsimp only
    split
    all_goals simp
  have hsent1 : (⟨d1.ws, .ride_accepted, .rideAcceptedDriver true rid
      "Corrida aceita com sucesso"⟩ : SentMsg) ∈ (runAccept w d1 rid).sent := by
    rw [hrun1]
    try dsimp only
    apply sendMessage_sent_self
    simp only [broadcastToUserType_wsOpen]
    split
    all_goals simp [hws1]
  have hst1 : (applyRideUpdate ride
      { driverId := some d1.userId, status := some "accepted" }).status
      ≠ "pending" := by
    rw [show (applyRideUpdate ride { driverId := some d1.userId, status := some "accepted" }).status = "accepted" from rfl]
    decide
  have hrun2 := runAccept_nonpending (runAccept w d1 rid) d2 rid
    (applyRideUpdate ride { driverId := some d1.userId, status := some "accepted" })
    h2 hride1 hst1
  refine ⟨?_, ?_, ?_⟩
  · rw [hrun2]
    unfold sendError
    exact mem_sent_sendMessage _ _ _ _ hsent1
  · rw [hrun2]
    unfold sendError
    apply sendMessage_sent_self
    rw [hwsOpen1]
    exact hws2
  · rw [hrun2]
    rw [show (sendError (runAccept w d1 rid) d2.ws
      "Esta corrida não está mais disponível").store
      = (runAccept w d1 rid).store from by simp]
    rw [hride1]
    rfl

/-- Witness for C1's amended theorem: drivers 20 then 21 serially accept
pending ride 1 of `pendingRideWorld`. -/
theorem c1_serial_exactly_one_witness :
    ((⟨1, 20, "driver", 0⟩ : Client).userType = "driver" ∧
      (⟨2, 21, "driver", 0⟩ : Client).userType = "driver" ∧
      (getRideById pendingRideWorld.store 1).map (fun r => r.status)
        = some "pending" ∧
      (getDriverLocationByDriverId pendingRideWorld.store 20).map
        (fun l => l.currentRideId) = some none ∧
      (1 : Nat) ∈ pendingRideWorld.wsOpen ∧ (2 : Nat) ∈ pendingRideWorld.wsOpen) ∧
    ((⟨1, .ride_accepted, .rideAcceptedDriver true 1
        "Corrida aceita com sucesso"⟩ : SentMsg)
      ∈ (runAccept (runAccept pendingRideWorld ⟨1, 20, "driver", 0⟩ 1)
          ⟨2, 21, "driver", 0⟩ 1).sent ∧
    (⟨2, .error, .errorMsg "Esta corrida não está mais disponível"⟩ : SentMsg)
      ∈ (runAccept (runAccept pendingRideWorld ⟨1, 20, "driver", 0⟩ 1)
          ⟨2, 21, "driver", 0⟩ 1).sent ∧
    (getRideById (runAccept (runAccept pendingRideWorld ⟨1, 20, "driver", 0⟩ 1)
          ⟨2, 21, "driver", 0⟩ 1).store 1).map
      (fun r => (r.status, r.driverId)) = some ("accepted", some 20)) :=
  ⟨by decide,
   c1_serial_exactly_one pendingRideWorld ⟨1, 20, "driver", 0⟩
     ⟨2, 21, "driver", 0⟩ 1
     { id := 1, userId := 10, status := "pending", req := examplePayload }
     { driverId := 20, latitude := -2300, longitude := -4700,
       status := "available" }
     (by decide) (by decide) (by decide) (by decide) (by decide) (by decide)
     (by decide) (by decide)⟩

/-- One unrolling of the heartbeat scan loop. -/
theorem scanFrom_succ (now : Nat) (cs : List Client) (opn : List Nat)
    (i k : Nat) :
    scanFrom now cs opn i (k + 1) =
      if h : i < cs.length then
        (if HEARTBEAT_TIMEOUT < now - (cs.get ⟨i, h⟩).lastActivity then
          scanFrom now (cs.eraseIdx i) (opn.erase (cs.get ⟨i, h⟩).ws) (i + 1) k
        else scanFrom now cs opn (i + 1) k)
      else (cs, opn) := rfl

/-- The scan loop with no fuel left returns its inputs. -/
theorem scanFrom_zero (now : Nat) (cs : List Client) (opn : List Nat)
    (i : Nat) : scanFrom now cs opn i 0 = (cs, opn) := rfl

/-- C5 (amended): a lone stale session is evicted within the scan that
observes it, and the scan itself never touches the store (the offline
transition lives only in the connection-close handler) nor sends any
frame; per the counterexample, adjacent stale sessions are *not* all
evicted in one scan, and eviction alone never writes `offline`. -/
theorem c5_scan_lone_stale (w : World) (now : Nat) (c : Client)
    (hc : w.clients = [c])
    (hstale : HEARTBEAT_TIMEOUT < now - c.lastActivity) :
    (heartbeatScan w now).clients = [] ∧
    (heartbeatScan w now).store = w.store ∧
    (heartbeatScan w now).sent = w.sent := by
  unfold heartbeatScan
  refine ⟨?_, rfl, rfl⟩
  try dsimp only
  rw [hc]
  simp only [List.length_cons, List.length_nil]
  rw [scanFrom_succ, dif_pos (by simp)]
  simp [hstale, scanFrom_zero]

/-- Witness for C5's amended theorem: a single silent placeholder session,
scanned at 70 s. -/
theorem c5_scan_lone_stale_witness :
    ((runEvents (initialWorld exampleStore) [.connect 1 0]).clients
        = [⟨1, 0, "passenger", 0⟩] ∧
      HEARTBEAT_TIMEOUT < 70000 - (⟨1, 0, "passenger", 0⟩ : Client).lastActivity) ∧
    ((heartbeatScan (runEvents (initialWorld exampleStore) [.connect 1 0])
        70000).clients = [] ∧
     (heartbeatScan (runEvents (initialWorld exampleStore) [.connect 1 0])
        70000).store = (runEvents (initialWorld exampleStore) [.connect 1 0]).store ∧
     (heartbeatScan (runEvents (initialWorld exampleStore) [.connect 1 0])
        70000).sent = (runEvents (initialWorld exampleStore) [.connect 1 0]).sent) :=
  ⟨by decide,
   c5_scan_lone_stale (runEvents (initialWorld exampleStore) [.connect 1 0])
     70000 ⟨1, 0, "passenger", 0⟩ (by decide) (by decide)⟩

end RideRT